import Mathlib

/-!
Shallow embedding of the detection engine of grafana/detect-angular-dashboards.

The embedded code is the current detector package (`detector.go`: `Run`,
`checkPanels`, `isLegacyPanel`, `checkPanel`), the Grafana API models
(`api/grafana/models.go`, `grafana.go`) and the plugin-catalog client
(`api/gcom/gcom.go`).

Go maps with zero-value lookups are embedded either as functions
(`String → Bool` with default `false`, `String → String` with default `""`)
where the detector only reads them, or as association lists where the code
builds them incrementally and key-presence matters.

Goroutine fan-out in `Run` is sequentialized in listing order (one
interleaving of the concurrent code); the claims settled against
`runDetector` concern which entries and errors are produced, not their
interleaving.
-/

namespace DetectAngular

/-- output.DetectionType: the three detection kinds from output/output.go. -/

inductive DetectionType where
  | panel
  | datasource
  | legacyPanel
deriving DecidableEq, Repr

/-- output.Detection from output/output.go. -/

structure Detection where
  pluginID : String
  detectionType : DetectionType
  title : String
deriving DecidableEq, Repr

/-- The polymorphic `Datasource interface{}` field of a panel after
`ConvertPanels` (api/grafana/grafana.go): `nil`, a bare string (old shape),
a `PanelDatasource` struct carrying the plugin id (new shape), or any other
unmarshaled dynamic type (`other` carries the Go type name that `%T` would
print). -/

inductive DatasourceField where
  | null
  | str (s : String)
  | ref (dsType : String)
  | other (goTypeName : String)
deriving DecidableEq, Repr

/-- grafana.DashboardPanel from api/grafana/models.go: plugin type, title,
datasource reference and child panels (non-empty only for collapsed rows). -/

inductive DashboardPanel where
  | mk (panelType : String) (title : String) (datasource : DatasourceField)
      (panels : List DashboardPanel)

def DashboardPanel.panelType : DashboardPanel → String
  | .mk t _ _ _ => t

def DashboardPanel.title : DashboardPanel → String
  | .mk _ t _ _ => t

def DashboardPanel.datasource : DashboardPanel → DatasourceField
  | .mk _ _ d _ => d

def DashboardPanel.panels : DashboardPanel → List DashboardPanel
  | .mk _ _ _ ps => ps

/-- grafana.Dashboard from api/grafana/models.go. -/

structure Dashboard where
  panels : List DashboardPanel
  schemaVersion : Int

/-- grafana.DashboardMeta (folder/audit metadata of a dashboard definition). -/

structure DashboardMeta where
  folderTitle : String
  createdBy : String
  updatedBy : String
  created : String
  updated : String
deriving DecidableEq, Repr

/-- grafana.DashboardDefinition: full payload for one dashboard. -/

structure DashboardDefinition where
  dashboard : Dashboard
  meta : DashboardMeta

/-- output.Dashboard from output/output.go: one report entry. -/

structure OutputDashboard where
  detections : List Detection
  url : String
  title : String
  folder : String
  createdBy : String
  updatedBy : String
  created : String
  updated : String
deriving DecidableEq, Repr

/-- grafana.ListedDashboard from api/grafana/models.go. -/

structure ListedDashboard where
  uid : String
  url : String
  title : String
deriving DecidableEq, Repr

/-- The plugin id constants at the top of detector.go. -/

def pluginIDGraphOld : String := "graph"

def pluginIDTable : String := "table"

def pluginIDTableOld : String := "table-old"

def pluginIDPiechart : String := "grafana-piechart-panel"

def pluginIDWorldmap : String := "grafana-worldmap-panel"

def pluginIDSinglestatOld : String := "grafana-singlestat-panel"

def pluginIDSinglestat : String := "singlestat"

/-- The fixed slice passed to slices.Contains in detector.go isLegacyPanel. -/

def legacyPanelSlice : List String :=
  [pluginIDGraphOld, pluginIDTableOld, pluginIDPiechart, pluginIDWorldmap,
   pluginIDSinglestatOld, pluginIDSinglestat]

/-- detector.go isLegacyPanel: true if the panel is a legacy panel that can be
automatically migrated to a React equivalent by core Grafana. -/

def isLegacyPanel (pluginType : String) (dashboardSchemaVersion : Int) : Bool :=
  if legacyPanelSlice.contains pluginType then
    true
  else if pluginType = pluginIDTable ∧ dashboardSchemaVersion < 24 then
    true
  else
    false

/-- detector.go checkPanel: checks the given panel for Angular plugins.
`angularDetected` and `datasourcePluginIDs` embed the detector's two Go maps
as total lookup functions with the maps' zero-value defaults (`false`, `""`).
The `dashboardDefinition` argument is reduced to the only field checkPanel
reads from it, `Dashboard.SchemaVersion`. -/

def checkPanel (angularDetected : String → Bool)
    (datasourcePluginIDs : String → String) (schemaVersion : Int)
    (p : DashboardPanel) : Except String (List Detection) :=
  let panelOut : List Detection :=
    if isLegacyPanel p.panelType schemaVersion then
      [{ detectionType := .legacyPanel, pluginID := p.panelType, title := p.title }]
    else if angularDetected p.panelType then
      [{ detectionType := .panel, pluginID := p.panelType, title := p.title }]
    else
      []
  match p.datasource with
  | .null => .ok panelOut
  | .str dsName =>
    if dsName = "" then
      .ok panelOut
    else
      let dsPlugin := datasourcePluginIDs dsName
      if angularDetected dsPlugin then
        .ok (panelOut ++
          [{ detectionType := .datasource, pluginID := dsPlugin, title := p.title }])
      else
        .ok panelOut
  | .ref dsType =>
    if angularDetected dsType then
      .ok (panelOut ++
        [{ detectionType := .datasource, pluginID := dsType, title := p.title }])
    else
      .ok panelOut
  | .other goTypeName =>
    .error ("unknown unmarshaled datasource type " ++ goTypeName)

/-- detector.go checkPanels: calls checkPanel recursively on the given panels,
appending each panel's detections and then its children's (collapsed rows). -/

def checkPanels (angularDetected : String → Bool)
    (datasourcePluginIDs : String → String) (schemaVersion : Int) :
    List DashboardPanel → Except String (List Detection)
  | [] => .ok []
  | .mk ty ti ds children :: rest => do
    let r ← checkPanel angularDetected datasourcePluginIDs schemaVersion
      (.mk ty ti ds children)
    let mid ←
      if children.isEmpty then
        Except.ok []
      else
        checkPanels angularDetected datasourcePluginIDs schemaVersion children
    let rr ← checkPanels angularDetected datasourcePluginIDs schemaVersion rest
    .ok (r ++ mid ++ rr)

/-- The detections of a given kind inside a detection sequence (helper for
stating the claims; not part of the source). -/

def detectionsOfKind (k : DetectionType) (dets : List Detection) : List Detection :=
  dets.filter (fun d => d.detectionType == k)

/-- The panel-kind part of checkPanel's output (the `out` slice built by the
panel check before the datasource check), extracted as a named helper for the
lemmas below. -/

def panelSectionDetections (angularDetected : String → Bool) (schemaVersion : Int)
    (ty ti : String) : List Detection :=
  if isLegacyPanel ty schemaVersion then
    [{ detectionType := .legacyPanel, pluginID := ty, title := ti }]
  else if angularDetected ty then
    [{ detectionType := .panel, pluginID := ty, title := ti }]
  else
    []

/-- True unless the datasource field has the malformed shape that makes
checkPanel return an error. -/

def datasourceWellFormed : DatasourceField → Bool
  | .other _ => false
  | _ => true

/-- True when no panel in the tree (the list, recursively including collapsed
rows' children) has a malformed datasource field. -/

def panelsWellFormed : List DashboardPanel → Bool
  | [] => true
  | .mk _ _ ds ch :: rest =>
    datasourceWellFormed ds && panelsWellFormed ch && panelsWellFormed rest

/-- The datasource part of checkPanel's output on a well-formed datasource
field (helper for stating the flattening claim). -/

def datasourceSectionDetections (angularDetected : String → Bool)
    (datasourcePluginIDs : String → String) (ti : String) :
    DatasourceField → List Detection
  | .null => []
  | .str s =>
    if s = "" then []
    else if angularDetected (datasourcePluginIDs s) then
      [{ detectionType := .datasource, pluginID := datasourcePluginIDs s, title := ti }]
    else []
  | .ref t =>
    if angularDetected t then
      [{ detectionType := .datasource, pluginID := t, title := ti }]
    else []
  | .other _ => []

/-- One panel's own detections: panel-kind check first, then datasource
check, as §4.3 of the spec orders them. -/

def panelOwnDetections (angularDetected : String → Bool)
    (datasourcePluginIDs : String → String) (schemaVersion : Int)
    (p : DashboardPanel) : List Detection :=
  panelSectionDetections angularDetected schemaVersion p.panelType p.title ++
    datasourceSectionDetections angularDetected datasourcePluginIDs p.title p.datasource

/-- Pre-order flattening as the spec words it: for each panel in original
order, its own detections followed by its children's, in original child
order. -/

def preorderDetections (angularDetected : String → Bool)
    (datasourcePluginIDs : String → String) (schemaVersion : Int) :
    List DashboardPanel → List Detection
  | [] => []
  | .mk ty ti ds ch :: rest =>
    panelOwnDetections angularDetected datasourcePluginIDs schemaVersion
        (.mk ty ti ds ch) ++
      preorderDetections angularDetected datasourcePluginIDs schemaVersion ch ++
      preorderDetections angularDetected datasourcePluginIDs schemaVersion rest

/-! ## Association-list embedding of Go string-keyed maps
Insertion overwrites (last write wins); lookup of a missing key returns the
zero value, as for Go maps. -/

/-- Insert with overwrite into a string-keyed association list. -/

def insertMap {α : Type} (m : List (String × α)) (k : String) (v : α) :
    List (String × α) :=
  (k, v) :: m.filter (fun kv => kv.1 != k)

/-- Go map read `m[k]` for a bool-valued map (zero value false). -/

def lookupBoolMap (m : List (String × Bool)) (k : String) : Bool :=
  match m.find? (fun kv => kv.1 == k) with
  | some kv => kv.2
  | none => false

/-- Go map read `m[k]` for a string-valued map (zero value ""). -/

def lookupStrMap (m : List (String × String)) (k : String) : String :=
  match m.find? (fun kv => kv.1 == k) with
  | some kv => kv.2
  | none => ""

/-- Go two-valued map read `_, ok := m[k]` (key presence). -/

def hasKey {α : Type} (m : List (String × α)) (k : String) : Bool :=
  m.any (fun kv => kv.1 == k)

/-! ## api/gcom: the plugin-catalog client -/

/-- gcom.PluginVersion: one catalog item (version and its Angular flag). -/

structure PluginVersion where
  version : String
  angularDetected : Bool
deriving DecidableEq, Repr

/-- gcom.PluginVersions: the catalog response body. -/

structure PluginVersions where
  items : List PluginVersion
deriving DecidableEq, Repr

/-- Outcome of the catalog HTTP request in gcom.GetAngularDetected:
a decoded body, a non-200 status (api.ErrBadStatusCode), or any other
request failure. -/

inductive GcomResponse where
  | ok (resp : PluginVersions)
  | badStatus (code : Nat)
  | otherFailure (msg : String)
deriving DecidableEq, Repr

/-- The version-matching loop of gcom.GetAngularDetected: first item with
exactly the requested version string wins; otherwise false. -/

def findVersionAngular : List PluginVersion → String → Bool
  | [], _ => false
  | pv :: rest, v =>
    if pv.version = v then pv.angularDetected else findVersionAngular rest v

/-- gcom.GetAngularDetected (api/gcom/gcom.go): bad status codes are
swallowed as false, other request failures are wrapped errors, and a decoded
response is scanned for an exact version match. -/

def getAngularDetected (resp : GcomResponse) (version : String) :
    Except String Bool :=
  match resp with
  | .badStatus _ => .ok false
  | .otherFailure m => .error ("request: " ++ m)
  | .ok r => .ok (findVersionAngular r.items version)

/-! ## api/grafana models used by the detector -/

/-- grafana.PluginInfo. -/

structure PluginInfo where
  version : String
deriving DecidableEq, Repr

/-- grafana.Plugin. -/

structure Plugin where
  id : String
  info : PluginInfo
deriving DecidableEq, Repr

/-- grafana.Datasource (name and plugin id, called Type in Go). -/

structure DatasourceEntry where
  name : String
  dsType : String
deriving DecidableEq, Repr

/-- grafana.FrontendSettingsPanel: `angular` models the `Angular
*struct{Detected bool}` pointer as `Option Bool` (some d ↔ non-nil pointer
with Detected = d), `angularDetected` the `AngularDetected *bool` field. -/

structure FrontendSettingsPanel where
  angularDetected : Option Bool
  angular : Option Bool
deriving DecidableEq, Repr

/-- grafana.FrontendSettingsDatasource: `metaAngular` models the nested
`Meta.Angular` pointer, `dsType` the plugin id field called Type in Go. -/

structure FrontendSettingsDatasource where
  angularDetected : Option Bool
  metaAngular : Option Bool
  dsType : String
deriving DecidableEq, Repr

/-- grafana.FrontendSettings. The Go fields are maps (random iteration
order); they are embedded as association lists, fixing one iteration order,
and the Panels probe in runDetector reads the list head as the map's
"any entry". -/

structure FrontendSettings where
  panels : List (String × FrontendSettingsPanel)
  datasources : List FrontendSettingsDatasource
deriving DecidableEq, Repr

/-- The errUnknownAngularStatus message (api/grafana/grafana.go). -/

def errUnknownAngularStatusMsg : String :=
  "could not determine if plugin is angular or not, use GCOM instead"

/-- FrontendSettingsPanel.IsAngular: newer Angular shape first, then
AngularDetected, else the unknown-status error. -/

def FrontendSettingsPanel.isAngular (p : FrontendSettingsPanel) :
    Except String Bool :=
  match p.angular with
  | some detected => .ok detected
  | none =>
    match p.angularDetected with
    | some b => .ok b
    | none => .error errUnknownAngularStatusMsg

/-- FrontendSettingsDatasource.IsAngular: Meta.Angular first, then
AngularDetected, else the unknown-status error. -/

def FrontendSettingsDatasource.isAngular (d : FrontendSettingsDatasource) :
    Except String Bool :=
  match d.metaAngular with
  | some detected => .ok detected
  | none =>
    match d.angularDetected with
    | some b => .ok b
    | none => .error errUnknownAngularStatusMsg

/-! ## The detector environment
All remote calls the detector makes, as pure response data. `listPages` is
the successive results of GetDashboards for pages 1, 2, …; pages beyond the
list behave as a page with zero dashboards (the loop's stop condition). -/

structure GrafanaEnv where
  baseURL : String
  frontendSettings : Except String FrontendSettings
  permissions : Except String (List (String × List String))
  plugins : Except String (List Plugin)
  gcom : String → String → GcomResponse
  datasources : Except String (List DatasourceEntry)
  listPages : List (Except String (List ListedDashboard))
  getDashboard : String → Except String DashboardDefinition

/-! ## Run, phase by phase (detector.go Run, sequentialized) -/

/-- The useGCOM probe: take one entry of the Panels map and test whether both
marker shapes are absent (detector.go, the `for … break` loop over
frontendSettings.Panels; false when the map is empty, as the Go variable
stays at its zero value). -/

def probeUseGCOM (fs : FrontendSettings) : Bool :=
  match fs.panels with
  | [] => false
  | (_, p) :: _ => p.angular.isNone && p.angularDetected.isNone

/-- The privilege error returned when the service account has neither
required permission. -/

def privilegeErrorMsg : String :=
  "the service account does not have \"datasources:create\" or \"plugins:install\" permission, " ++
    "please provide a token for a service account with admin privileges"

/-- The plugin-list loop of the GCOM path: skip plugins with empty version,
query the catalog for the rest, abort on a catalog error. -/

def buildGcomMap (gc : String → String → GcomResponse) :
    List Plugin → List (String × Bool) → Except String (List (String × Bool))
  | [], acc => .ok acc
  | p :: rest, acc =>
    if p.info.version = "" then
      buildGcomMap gc rest acc
    else
      match getAngularDetected (gc p.id p.info.version) p.info.version with
      | .error e => .error ("get angular detected: " ++ e)
      | .ok v => buildGcomMap gc rest (insertMap acc p.id v)

/-- The GCOM path after the permission check: fetch the plugin list and build
the classification map from catalog lookups. -/

def gcomPluginsPhase (env : GrafanaEnv) : Except String (List (String × Bool)) :=
  match env.plugins with
  | .error e => .error ("get plugins: " ++ e)
  | .ok ps => buildGcomMap env.gcom ps []

/-- The GCOM classification path of Run: a failing permission fetch is only
logged and the path proceeds; a successful fetch lacking both
"datasources:create" and "plugins:install" aborts with the privilege error. -/

def gcomClassify (env : GrafanaEnv) : Except String (List (String × Bool)) :=
  match env.permissions with
  | .error _ => gcomPluginsPhase env
  | .ok perms =>
    if !hasKey perms "datasources:create" && !hasKey perms "plugins:install" then
      .error privilegeErrorMsg
    else
      gcomPluginsPhase env

/-- The frontend-settings path, panels loop: classification from each panel
plugin's markers, wrapping IsAngular errors with the plugin id. -/

def frontendClassifyPanels (acc : List (String × Bool)) :
    List (String × FrontendSettingsPanel) → Except String (List (String × Bool))
  | [] => .ok acc
  | (pid, pnl) :: rest =>
    match pnl.isAngular with
    | .error e => .error ("\"" ++ pid ++ "\" is angular: " ++ e)
    | .ok v => frontendClassifyPanels (insertMap acc pid v) rest

/-- The frontend-settings path, datasources loop: keyed by each entry's
plugin id (Type). -/

def frontendClassifyDatasources (acc : List (String × Bool)) :
    List FrontendSettingsDatasource → Except String (List (String × Bool))
  | [] => .ok acc
  | ds :: rest =>
    match ds.isAngular with
    | .error e => .error ("\"" ++ ds.dsType ++ "\" is angular: " ++ e)
    | .ok v => frontendClassifyDatasources (insertMap acc ds.dsType v) rest

/-- The frontend-settings classification path of Run. -/

def frontendClassify (fs : FrontendSettings) : Except String (List (String × Bool)) :=
  match frontendClassifyPanels [] fs.panels with
  | .error e => .error e
  | .ok acc => frontendClassifyDatasources acc fs.datasources

/-- Datasource name → plugin id map built from the datasources listing. -/

def buildDatasourceMap (dss : List DatasourceEntry) : List (String × String) :=
  dss.foldl (fun m ds => insertMap m ds.name ds.dsType) []

/-- TrimSuffix(baseURL, "/api") from the dashboard-URL computation. -/

def stripAPISuffix (s : String) : String :=
  if s.endsWith "/api" then s.dropRight 4 else s

/-- The absolute dashboard URL. url.JoinPath's path cleaning is abstracted
to string concatenation; no settled claim depends on the URL text. -/

def dashboardAbsURL (base rel : String) : String :=
  stripAPISuffix base ++ rel

/-- One fetch-and-classify task of Run's fan-out: fetch the definition by
UID (recording a wrapped error on failure), classify its panels (recording a
wrapped error on failure), else assemble the report entry. -/

def processDashboard (env : GrafanaEnv) (ad : String → Bool)
    (dsMap : String → String) (dash : ListedDashboard) :
    Except String OutputDashboard :=
  match env.getDashboard dash.uid with
  | .error e => .error ("get dashboard \"" ++ dash.uid ++ "\": " ++ e)
  | .ok defn =>
    match checkPanels ad dsMap defn.dashboard.schemaVersion
        defn.dashboard.panels with
    | .error e => .error ("check panels: " ++ e)
    | .ok dets =>
      .ok { detections := dets
            url := dashboardAbsURL env.baseURL dash.url
            title := dash.title
            folder := defn.meta.folderTitle
            createdBy := defn.meta.createdBy
            updatedBy := defn.meta.updatedBy
            created := defn.meta.created
            updated := defn.meta.updated }

/-- One page's fan-out, sequentialized in listing order: every task runs
(a failing task does not stop the others); successes and collected errors
are returned separately, in listing order. -/

def processPage (env : GrafanaEnv) (ad : String → Bool)
    (dsMap : String → String) :
    List ListedDashboard → List OutputDashboard × List String
  | [] => ([], [])
  | dash :: rest =>
    let tail := processPage env ad dsMap rest
    match processDashboard env ad dsMap dash with
    | .ok entry => (entry :: tail.1, tail.2)
    | .error e => (tail.1, e :: tail.2)

/-- The aggregate error `errors occurred during dashboard download: %v`
(fmt %v of a Go error slice prints the messages space-separated in
brackets). -/

def renderDownloadErrors (errs : List String) : String :=
  "errors occurred during dashboard download: [" ++ String.intercalate " " errs ++ "]"

/-- The page loop of Run: a listing failure aborts with no entries; an empty
page stops; a page whose fan-out collected errors returns everything
accumulated so far plus the aggregate error; otherwise accumulate and
continue. -/

def runPages (env : GrafanaEnv) (ad : String → Bool) (dsMap : String → String) :
    List (Except String (List ListedDashboard)) → List OutputDashboard →
    List OutputDashboard × Option String
  | [], acc => (acc, none)
  | pg :: rest, acc =>
    match pg with
    | .error e => ([], some ("get dashboards: " ++ e))
    | .ok [] => (acc, none)
    | .ok (d :: ds) =>
      let page := processPage env ad dsMap (d :: ds)
      if page.2.isEmpty then
        runPages env ad dsMap rest (acc ++ page.1)
      else
        (acc ++ page.1, some (renderDownloadErrors page.2))

/-- detector.go Run, sequentialized: classification (frontend settings or
GCOM), datasource-map build, then the page loop. The Go function returns a
slice and an error; the error is embedded as `Option String` (none = nil). -/

def runDetector (env : GrafanaEnv) : List OutputDashboard × Option String :=
  match env.frontendSettings with
  | .error e => ([], some ("get frontend settings: " ++ e))
  | .ok fs =>
    match (if probeUseGCOM fs then gcomClassify env else frontendClassify fs) with
    | .error e => ([], some e)
    | .ok adMap =>
      match env.datasources with
      | .error e => ([], some ("get datasource plugin ids: " ++ e))
      | .ok dss =>
        runPages env (lookupBoolMap adMap)
          (lookupStrMap (buildDatasourceMap dss)) env.listPages []

/-! ## Helper lemmas about the page machinery -/

/-! ## Malformed-datasource trees -/

/-- The Go type names of all malformed datasource fields in the tree, in
pre-order. -/

def malformedTypeNames : List DashboardPanel → List String
  | [] => []
  | .mk _ _ ds ch :: rest =>
    (match ds with | .other g => [g] | _ => []) ++
      malformedTypeNames ch ++ malformedTypeNames rest

/-! ## Concrete environments for the witnesses -/

/-- Metadata used by the witness dashboards. -/

def wMeta : DashboardMeta :=
  { folderTitle := "test case folder", createdBy := "admin", updatedBy := "admin",
    created := "2023-11-07", updated := "2024-02-21" }

/-- A clean dashboard definition (no panels). -/

def wDefn : DashboardDefinition := { dashboard := { panels := [], schemaVersion := 30 }, meta := wMeta }

/-- A definition holding one panel with a malformed datasource field. -/

def wDefnMalformed : DashboardDefinition :=
  { dashboard :=
      { panels := [.mk "table" "bad panel" (.other "float64") []], schemaVersion := 30 },
    meta := wMeta }

/-- Frontend settings whose probe entry carries the AngularDetected marker
(frontend-settings path taken). -/

def wFS : FrontendSettings :=
  { panels := [("briangann-datatable-panel",
      { angularDetected := some true, angular := none })],
    datasources := [] }

/-- Frontend settings with neither marker (GCOM path taken). -/

def wFSBare : FrontendSettings :=
  { panels := [("graph", { angularDetected := none, angular := none })],
    datasources := [] }

/-- Environment where fetching dashboard "k" fails in transit. -/

def envPartialFailure : GrafanaEnv :=
  { baseURL := ""
    frontendSettings := .ok wFS
    permissions := .ok []
    plugins := .ok []
    gcom := fun _ _ => .badStatus 404
    datasources := .ok [{ name := "akumuli", dsType := "akumuli-datasource" }]
    listPages := [.ok [{ uid := "a", url := "/d/a/a", title := "A" },
                       { uid := "k", url := "/d/k/k", title := "K" },
                       { uid := "b", url := "/d/b/b", title := "B" }]]
    getDashboard := fun uid =>
      if uid == "k" then .error "connection refused" else .ok wDefn }

/-- Environment where dashboard "k" is fetched fine but holds a malformed
datasource field. -/

def envMalformed : GrafanaEnv :=
  { envPartialFailure with
    getDashboard := fun uid =>
      if uid == "k" then .ok wDefnMalformed else .ok wDefn }

/-- Environment whose service account lacks both required permissions
(GCOM path). -/

def envPrivilege : GrafanaEnv :=
  { baseURL := ""
    frontendSettings := .ok wFSBare
    permissions := .ok [("dashboards:read", ["*"])]
    plugins := .ok []
    gcom := fun _ _ => .badStatus 404
    datasources := .ok []
    listPages := []
    getDashboard := fun _ => .error "unused" }

/-- Environment whose permission endpoint itself fails (GCOM path
proceeds). -/

def envPermsDown : GrafanaEnv :=
  { envPrivilege with permissions := .error "404 page not found" }

/-- Shape of every successful checkPanel result: the panel-kind section
followed by zero or one datasource detection. -/
theorem checkPanel_ok_shape (ad : String → Bool) (dsMap : String → String)
    (sv : Int) (p : DashboardPanel) (dets : List Detection)
    (h : checkPanel ad dsMap sv p = .ok dets) :
    dets = panelSectionDetections ad sv p.panelType p.title ∨
      ∃ dsp, ad dsp = true ∧
        dets = panelSectionDetections ad sv p.panelType p.title ++
          [{ detectionType := .datasource, pluginID := dsp, title := p.title }] := by
  obtain ⟨ty, ti, ds, ch⟩ := p
  simp only [checkPanel, DashboardPanel.panelType, DashboardPanel.title,
    DashboardPanel.datasource] at h ⊢
  cases ds with
  | null =>
    exact Or.inl (Except.ok.inj h).symm
  | str s =>
    by_cases hs : s = ""
    · simp only [hs, if_pos rfl] at h
      exact Or.inl (Except.ok.inj h).symm
    · simp only [if_neg hs] at h
      by_cases had : ad (dsMap s) = true
      · simp only [had, if_pos rfl] at h
        exact Or.inr ⟨dsMap s, had, (Except.ok.inj h).symm⟩
      · simp only [had] at h
        exact Or.inl (Except.ok.inj h).symm
  | ref t =>
    by_cases had : ad t = true
    · simp only [had, if_pos rfl] at h
      exact Or.inr ⟨t, had, (Except.ok.inj h).symm⟩
    · simp only [had] at h
      exact Or.inl (Except.ok.inj h).symm
  | other g =>
    exact absurd h (by simp)

/-- The panel-kind section never contains a datasource-kind detection. -/
theorem detectionsOfKind_datasource_panelSection (ad : String → Bool) (sv : Int)
    (ty ti : String) :
    detectionsOfKind .datasource (panelSectionDetections ad sv ty ti) = [] := by
  unfold panelSectionDetections
  split
  · rfl
  · split <;> rfl

/-- C1: for every panel whose plugin type is one of the six fixed
legacy-migratable identifiers, every successful checkPanel result contains
exactly one legacy-panel Detection, carrying that plugin type and the panel's
title, and no deprecated-panel Detection — for every classification map,
including maps marking that type true. -/
theorem checkPanel_legacy_precedence (ad : String → Bool)
    (dsMap : String → String) (sv : Int) (p : DashboardPanel)
    (hty : p.panelType ∈ legacyPanelSlice) (dets : List Detection)
    (h : checkPanel ad dsMap sv p = .ok dets) :
    detectionsOfKind .legacyPanel dets =
      [{ detectionType := .legacyPanel, pluginID := p.panelType, title := p.title }] ∧
    detectionsOfKind .panel dets = [] := by
  have hleg : isLegacyPanel p.panelType sv = true := by
    simp only [isLegacyPanel]
    rw [if_pos (List.elem_eq_true_of_mem hty)]
  rcases checkPanel_ok_shape ad dsMap sv p dets h with hd | ⟨dsp, _, hd⟩ <;>
    subst hd <;>
    simp [detectionsOfKind, panelSectionDetections, hleg, List.filter_append]

/-- Witness for C1: a concrete "graph" panel, with "graph" also marked true in
the classification map, yields exactly the one legacy detection. -/
theorem checkPanel_legacy_precedence_witness :
    detectionsOfKind .legacyPanel
        [{ detectionType := .legacyPanel, pluginID := "graph", title := "Flot graph" }] =
      [{ detectionType := .legacyPanel, pluginID := "graph", title := "Flot graph" }] ∧
    detectionsOfKind .panel
        [{ detectionType := .legacyPanel, pluginID := "graph", title := "Flot graph" }] = [] :=
  checkPanel_legacy_precedence (fun s => s == "graph") (fun _ => "") 30
    (.mk "graph" "Flot graph" .null []) (by decide)
    [{ detectionType := .legacyPanel, pluginID := "graph", title := "Flot graph" }] rfl

/-- C2: a "table" panel is classified legacy-migratable exactly below schema
version 24; at 24 or above it emits no legacy detection and emits a
deprecated-panel detection exactly when "table" is true in the map. -/
theorem checkPanel_table_version_boundary (ad : String → Bool)
    (dsMap : String → String) (sv : Int) (ti : String) (ds : DatasourceField)
    (ch : List DashboardPanel) (dets : List Detection)
    (h : checkPanel ad dsMap sv (.mk pluginIDTable ti ds ch) = .ok dets) :
    (sv < 24 →
      detectionsOfKind .legacyPanel dets =
        [{ detectionType := .legacyPanel, pluginID := pluginIDTable, title := ti }] ∧
      detectionsOfKind .panel dets = []) ∧
    (24 ≤ sv →
      detectionsOfKind .legacyPanel dets = [] ∧
      detectionsOfKind .panel dets =
        (if ad pluginIDTable then
          [{ detectionType := .panel, pluginID := pluginIDTable, title := ti }]
        else
          [])) := by
  have hmem : legacyPanelSlice.contains pluginIDTable = false := by decide
  constructor
  · intro hsv
    have hleg : isLegacyPanel pluginIDTable sv = true := by
      simp [isLegacyPanel, pluginIDTable, hsv]
    rcases checkPanel_ok_shape ad dsMap sv _ dets h with hd | ⟨dsp, _, hd⟩ <;>
      subst hd <;>
      simp_all [detectionsOfKind, panelSectionDetections, DashboardPanel.panelType,
        DashboardPanel.title, List.filter_append]
  · intro hsv
    have hleg : isLegacyPanel pluginIDTable sv = false := by
      unfold isLegacyPanel
      rw [if_neg (by decide), if_neg (fun hcon => absurd hcon.2 (by omega))]
    rcases checkPanel_ok_shape ad dsMap sv _ dets h with hd | ⟨dsp, _, hd⟩ <;>
      subst hd <;>
      by_cases had : ad pluginIDTable = true <;>
      simp_all [detectionsOfKind, panelSectionDetections, DashboardPanel.panelType,
        DashboardPanel.title, List.filter_append]

/-- Witness for C2: schema version 23 yields the legacy detection, schema
version 24 yields the deprecated-panel detection, for a map with "table" true. -/
theorem checkPanel_table_version_boundary_witness :
    (detectionsOfKind .legacyPanel
        [{ detectionType := .legacyPanel, pluginID := pluginIDTable, title := "t" }] =
      [{ detectionType := .legacyPanel, pluginID := pluginIDTable, title := "t" }] ∧
     detectionsOfKind .panel
        [{ detectionType := .legacyPanel, pluginID := pluginIDTable, title := "t" }] = []) ∧
    (detectionsOfKind .legacyPanel
        [{ detectionType := .panel, pluginID := pluginIDTable, title := "t" }] = [] ∧
     detectionsOfKind .panel
        [{ detectionType := .panel, pluginID := pluginIDTable, title := "t" }] =
      (if (fun s => s == "table") pluginIDTable then
        [{ detectionType := .panel, pluginID := pluginIDTable, title := "t" }]
      else
        [])) :=
  ⟨(checkPanel_table_version_boundary (fun s => s == "table") (fun _ => "") 23 "t"
      .null [] [{ detectionType := .legacyPanel, pluginID := pluginIDTable, title := "t" }]
      rfl).1 (by decide),
   (checkPanel_table_version_boundary (fun s => s == "table") (fun _ => "") 24 "t"
      .null [] [{ detectionType := .panel, pluginID := pluginIDTable, title := "t" }]
      rfl).2 (by decide)⟩

/-- C6: every successful checkPanel result has at most one panel-kind
detection (legacy or deprecated, never both), at most one datasource
detection, and hence length at most 2. -/
theorem checkPanel_at_most_one_each (ad : String → Bool)
    (dsMap : String → String) (sv : Int) (p : DashboardPanel)
    (dets : List Detection) (h : checkPanel ad dsMap sv p = .ok dets) :
    (detectionsOfKind .legacyPanel dets).length +
      (detectionsOfKind .panel dets).length ≤ 1 ∧
    (detectionsOfKind .datasource dets).length ≤ 1 ∧
    dets.length ≤ 2 := by
  rcases checkPanel_ok_shape ad dsMap sv p dets h with hd | ⟨dsp, _, hd⟩ <;>
    subst hd <;>
    unfold panelSectionDetections <;>
    split <;>
    try split
  all_goals simp [detectionsOfKind, List.filter_append]

/-- Witness for C6 at a concrete panel with both a panel-kind and a
datasource detection. -/
theorem checkPanel_at_most_one_each_witness :
    (detectionsOfKind .legacyPanel
        [{ detectionType := .panel, pluginID := "wm", title := "t" },
         { detectionType := .datasource, pluginID := "d", title := "t" }]).length +
      (detectionsOfKind .panel
        [{ detectionType := .panel, pluginID := "wm", title := "t" },
         { detectionType := .datasource, pluginID := "d", title := "t" }]).length ≤ 1 ∧
    (detectionsOfKind .datasource
        [{ detectionType := .panel, pluginID := "wm", title := "t" },
         { detectionType := .datasource, pluginID := "d", title := "t" }]).length ≤ 1 ∧
    ([{ detectionType := .panel, pluginID := "wm", title := "t" },
      { detectionType := .datasource, pluginID := "d", title := "t" }] :
        List Detection).length ≤ 2 :=
  checkPanel_at_most_one_each (fun s => s == "wm" || s == "d") (fun _ => "") 30
    (.mk "wm" "t" (.ref "d") [])
    [{ detectionType := .panel, pluginID := "wm", title := "t" },
     { detectionType := .datasource, pluginID := "d", title := "t" }] rfl

/-- Counterexample to C3 as stated: with the name map sending the empty name
to plugin "d" and "d" marked deprecated, the bare-string panel yields no
datasource detection (checkPanel skips the datasource check for the empty
string) while the structured-reference panel yields one, so the two do not
produce identical datasource-kind Detections. -/
theorem checkPanel_datasource_equivalence_cex :
    ((fun n => if n == "" then "d" else "") "" = "d") ∧
    ((fun s => s == "d") "d" = true) ∧
    checkPanel (fun s => s == "d") (fun n => if n == "" then "d" else "") 30
      (.mk "x" "t" (.str "") []) = .ok [] ∧
    checkPanel (fun s => s == "d") (fun n => if n == "" then "d" else "") 30
      (.mk "x" "t" (.ref "d") []) =
      .ok [{ detectionType := .datasource, pluginID := "d", title := "t" }] ∧
    detectionsOfKind .datasource [] ≠
      detectionsOfKind .datasource
        [{ detectionType := .datasource, pluginID := "d", title := "t" }] :=
  ⟨rfl, rfl, rfl, rfl, by decide⟩

/-- C3 amended: provided the bare name is non-empty, a panel whose datasource
is the bare string n and an otherwise identical panel whose datasource is the
structured reference carrying the name map's image of n produce identical
checkPanel results; when that image is marked deprecated, the datasource-kind
detections are exactly one deprecated-datasource Detection with that plugin id
and the panel's title. -/
theorem checkPanel_datasource_equivalence (ad : String → Bool)
    (dsMap : String → String) (sv : Int) (ty ti n : String)
    (ch : List DashboardPanel) (hn : n ≠ "") :
    checkPanel ad dsMap sv (.mk ty ti (.str n) ch) =
      checkPanel ad dsMap sv (.mk ty ti (.ref (dsMap n)) ch) ∧
    (ad (dsMap n) = true →
      ∀ dets, checkPanel ad dsMap sv (.mk ty ti (.str n) ch) = .ok dets →
        detectionsOfKind .datasource dets =
          [{ detectionType := .datasource, pluginID := dsMap n, title := ti }]) := by
  have heq : checkPanel ad dsMap sv (.mk ty ti (.str n) ch) =
      checkPanel ad dsMap sv (.mk ty ti (.ref (dsMap n)) ch) := by
    simp only [checkPanel, DashboardPanel.panelType, DashboardPanel.title,
      DashboardPanel.datasource, if_neg hn]
  refine ⟨heq, fun had dets h => ?_⟩
  simp only [checkPanel, DashboardPanel.panelType, DashboardPanel.title,
    DashboardPanel.datasource, if_neg hn] at h
  rw [if_pos had] at h
  rw [← Except.ok.inj h]
  have hsplit :
      detectionsOfKind .datasource
        (panelSectionDetections ad sv ty ti ++
          [{ detectionType := .datasource, pluginID := dsMap n, title := ti }]) =
      detectionsOfKind .datasource (panelSectionDetections ad sv ty ti) ++
        detectionsOfKind .datasource
          [{ detectionType := .datasource, pluginID := dsMap n, title := ti }] :=
    List.filter_append _ _
  exact hsplit.trans (by rw [detectionsOfKind_datasource_panelSection]; rfl)

/-- Witness for C3 amended: the akumuli scenario of the spec. -/
theorem checkPanel_datasource_equivalence_witness :
    (checkPanel (fun s => s == "akumuli-datasource")
        (fun m => if m == "akumuli" then "akumuli-datasource" else "") 30
        (.mk "table" "Panel two" (.str "akumuli") []) =
      checkPanel (fun s => s == "akumuli-datasource")
        (fun m => if m == "akumuli" then "akumuli-datasource" else "") 30
        (.mk "table" "Panel two"
          (.ref ((fun m => if m == "akumuli" then "akumuli-datasource" else "") "akumuli")) [])) ∧
    detectionsOfKind .datasource
        [{ detectionType := .datasource, pluginID := "akumuli-datasource",
           title := "Panel two" }] =
      [{ detectionType := .datasource,
         pluginID := (fun m => if m == "akumuli" then "akumuli-datasource" else "") "akumuli",
         title := "Panel two" }] :=
  ⟨(checkPanel_datasource_equivalence (fun s => s == "akumuli-datasource")
      (fun m => if m == "akumuli" then "akumuli-datasource" else "") 30
      "table" "Panel two" "akumuli" [] (by decide)).1,
   (checkPanel_datasource_equivalence (fun s => s == "akumuli-datasource")
      (fun m => if m == "akumuli" then "akumuli-datasource" else "") 30
      "table" "Panel two" "akumuli" [] (by decide)).2 rfl
      [{ detectionType := .datasource, pluginID := "akumuli-datasource",
         title := "Panel two" }] rfl⟩

/-- checkPanel on a well-formed datasource returns exactly the panel's own
detections, panel-kind part first. -/
theorem checkPanel_ok_of_wellFormed (ad : String → Bool)
    (dsMap : String → String) (sv : Int) (p : DashboardPanel)
    (hwf : datasourceWellFormed p.datasource = true) :
    checkPanel ad dsMap sv p = .ok (panelOwnDetections ad dsMap sv p) := by
  obtain ⟨ty, ti, ds, ch⟩ := p
  cases ds with
  | null =>
    simp [checkPanel, panelOwnDetections, panelSectionDetections,
      datasourceSectionDetections, DashboardPanel.panelType, DashboardPanel.title,
      DashboardPanel.datasource]
  | str s =>
    by_cases hs : s = "" <;>
      by_cases had : ad (dsMap s) = true <;>
      simp [checkPanel, panelOwnDetections, panelSectionDetections,
        datasourceSectionDetections, DashboardPanel.panelType, DashboardPanel.title,
        DashboardPanel.datasource, hs, had]
  | ref t =>
    by_cases had : ad t = true <;>
      simp [checkPanel, panelOwnDetections, panelSectionDetections,
        datasourceSectionDetections, DashboardPanel.panelType, DashboardPanel.title,
        DashboardPanel.datasource, had]
  | other g =>
    simp [datasourceWellFormed, DashboardPanel.datasource] at hwf

/-- General flattening lemma: on panel trees without malformed datasources,
checkPanels succeeds with the pre-order flattening of the per-panel
detections. -/
theorem checkPanels_eq_preorder_of_wellFormed (ad : String → Bool)
    (dsMap : String → String) (sv : Int) (ps : List DashboardPanel)
    (hwf : panelsWellFormed ps = true) :
    checkPanels ad dsMap sv ps = .ok (preorderDetections ad dsMap sv ps) := by
  induction ps using checkPanels.induct ad dsMap sv with
  | case1 => simp [checkPanels, preorderDetections]
  | case2 ty ti ds ch rest ihrest ihch =>
    rw [panelsWellFormed] at hwf
    simp only [Bool.and_eq_true] at hwf
    obtain ⟨⟨hds, hch⟩, hrest⟩ := hwf
    rw [checkPanels,
      checkPanel_ok_of_wellFormed ad dsMap sv (.mk ty ti ds ch) hds]
    by_cases hempty : ch.isEmpty
    · have hchnil : ch = [] := List.isEmpty_iff.mp hempty
      subst hchnil
      rw [preorderDetections]
      simp only [hempty, if_pos, ihrest hrest]
      show Except.ok _ = _
      rw [preorderDetections, List.append_nil]
    · rw [preorderDetections]
      simp only [hempty, Bool.false_eq_true, if_neg, ihrest hrest, ihch hch]
      rfl

/-- C4: on panel trees without malformed datasources, checkPanels flattens
the tree in pre-order: each panel's own detections (panel-kind check, then
datasource check) in original order, followed by the detections of its child
panels in original child order. -/
theorem checkPanels_preorder_flattening (ad : String → Bool)
    (dsMap : String → String) (sv : Int) (ps : List DashboardPanel)
    (hwf : panelsWellFormed ps = true) :
    checkPanels ad dsMap sv ps = .ok (preorderDetections ad dsMap sv ps) :=
  checkPanels_eq_preorder_of_wellFormed ad dsMap sv ps hwf

/-- Witness for C4: the A / collapsed-row(B, C) dashboard of the spec, with B
deprecated and C clean: exactly A's detection followed by B's, nothing for
C. -/
theorem checkPanels_preorder_flattening_witness :
    checkPanels (fun s => s == "adep" || s == "bdep") (fun _ => "") 30
      [.mk "adep" "A" .null [],
       .mk "row" "Row" .null
         [.mk "bdep" "B" .null [], .mk "c" "C" .null []]] =
    .ok (preorderDetections (fun s => s == "adep" || s == "bdep") (fun _ => "") 30
      [.mk "adep" "A" .null [],
       .mk "row" "Row" .null
         [.mk "bdep" "B" .null [], .mk "c" "C" .null []]]) ∧
    preorderDetections (fun s => s == "adep" || s == "bdep") (fun _ => "") 30
      [.mk "adep" "A" .null [],
       .mk "row" "Row" .null
         [.mk "bdep" "B" .null [], .mk "c" "C" .null []]] =
      [{ detectionType := .panel, pluginID := "adep", title := "A" },
       { detectionType := .panel, pluginID := "bdep", title := "B" }] :=
  ⟨checkPanels_preorder_flattening (fun s => s == "adep" || s == "bdep")
      (fun _ => "") 30 _
      (by simp [panelsWellFormed, datasourceWellFormed]),
   by
    simp [preorderDetections, panelOwnDetections, panelSectionDetections,
      datasourceSectionDetections, isLegacyPanel, legacyPanelSlice,
      DashboardPanel.panelType, DashboardPanel.title, DashboardPanel.datasource,
      pluginIDGraphOld, pluginIDTable, pluginIDTableOld, pluginIDPiechart,
      pluginIDWorldmap, pluginIDSinglestatOld, pluginIDSinglestat]⟩

/-- A successful task's report entry carries the summary's title. -/
theorem processDashboard_title (env : GrafanaEnv) (ad : String → Bool)
    (dsMap : String → String) (dash : ListedDashboard) (o : OutputDashboard)
    (h : processDashboard env ad dsMap dash = .ok o) : o.title = dash.title := by
  cases hg : env.getDashboard dash.uid with
  | error e => simp [processDashboard, hg] at h
  | ok defn =>
    cases hc : checkPanels ad dsMap defn.dashboard.schemaVersion
        defn.dashboard.panels with
    | error e => simp [processDashboard, hg, hc] at h
    | ok dets =>
      simp only [processDashboard, hg, hc] at h
      rw [← Except.ok.inj h]

/-- A definition-fetch failure makes the task record the wrapped error. -/
theorem processDashboard_fetch_error (env : GrafanaEnv) (ad : String → Bool)
    (dsMap : String → String) (dash : ListedDashboard) (e : String)
    (h : env.getDashboard dash.uid = .error e) :
    processDashboard env ad dsMap dash =
      .error ("get dashboard \"" ++ dash.uid ++ "\": " ++ e) := by
  unfold processDashboard
  rw [h]

/-- processPage distributes over appended summary lists. -/
theorem processPage_append (env : GrafanaEnv) (ad : String → Bool)
    (dsMap : String → String) (xs ys : List ListedDashboard) :
    processPage env ad dsMap (xs ++ ys) =
      ((processPage env ad dsMap xs).1 ++ (processPage env ad dsMap ys).1,
       (processPage env ad dsMap xs).2 ++ (processPage env ad dsMap ys).2) := by
  induction xs with
  | nil => simp [processPage]
  | cons d rest ih =>
    simp only [List.cons_append, processPage, ih]
    rcases processDashboard env ad dsMap d with e | o <;> simp [ih]

/-- A page whose tasks all succeed collects no errors and yields one entry
per summary, in order, titled after the summaries. -/
theorem processPage_all_ok (env : GrafanaEnv) (ad : String → Bool)
    (dsMap : String → String) (xs : List ListedDashboard)
    (h : ∀ s ∈ xs, ∃ o, processDashboard env ad dsMap s = .ok o) :
    (processPage env ad dsMap xs).2 = [] ∧
    (processPage env ad dsMap xs).1.map (fun o => o.title) =
      xs.map (fun s => s.title) := by
  induction xs with
  | nil => exact ⟨rfl, rfl⟩
  | cons d rest ih =>
    obtain ⟨o, ho⟩ := h d (List.mem_cons_self d rest)
    obtain ⟨ih1, ih2⟩ := ih (fun s hs => h s (List.mem_cons_of_mem d hs))
    simp only [processPage, ho]
    exact ⟨ih1, by simp [processDashboard_title env ad dsMap d o ho, ih2]⟩

/-- A listing-call failure aborts the page loop with no entries, whatever
was already accumulated. -/
theorem runPages_listing_error (env : GrafanaEnv) (ad : String → Bool)
    (dsMap : String → String) (e : String)
    (rest : List (Except String (List ListedDashboard)))
    (acc : List OutputDashboard) :
    runPages env ad dsMap (.error e :: rest) acc =
      ([], some ("get dashboards: " ++ e)) := rfl

/-- A page whose fan-out collected errors returns the accumulated entries
plus this page's successes, together with the aggregate error. -/
theorem runPages_page_with_errors (env : GrafanaEnv) (ad : String → Bool)
    (dsMap : String → String) (dashes : List ListedDashboard)
    (rest : List (Except String (List ListedDashboard)))
    (acc : List OutputDashboard) (hne : dashes ≠ [])
    (herr : (processPage env ad dsMap dashes).2 ≠ []) :
    runPages env ad dsMap (.ok dashes :: rest) acc =
      (acc ++ (processPage env ad dsMap dashes).1,
       some (renderDownloadErrors (processPage env ad dsMap dashes).2)) := by
  obtain ⟨d, ds, rfl⟩ : ∃ d ds, dashes = d :: ds := by
    cases dashes with
    | nil => exact absurd rfl hne
    | cons d ds => exact ⟨d, ds, rfl⟩
  show (if (processPage env ad dsMap (d :: ds)).2.isEmpty then _ else _) = _
  rw [if_neg (by simpa [List.isEmpty_iff] using herr)]

/-- On a tree containing a malformed datasource field, checkPanels aborts
with the descriptive error naming one of the tree's unexpected Go types
(no detections are returned for the earlier panels). -/
theorem checkPanels_error_of_malformed (ad : String → Bool)
    (dsMap : String → String) (sv : Int) (ps : List DashboardPanel)
    (hm : panelsWellFormed ps = false) :
    ∃ g, g ∈ malformedTypeNames ps ∧
      checkPanels ad dsMap sv ps =
        .error ("unknown unmarshaled datasource type " ++ g) := by
  induction ps using checkPanels.induct ad dsMap sv with
  | case1 => exact absurd hm (by simp [panelsWellFormed])
  | case2 ty ti ds ch rest ihrest ihch =>
    rw [panelsWellFormed] at hm
    cases hds : datasourceWellFormed ds with
    | false =>
      obtain ⟨g, rfl⟩ : ∃ g, ds = .other g := by
        cases ds with
        | other g => exact ⟨g, rfl⟩
        | null => exact absurd hds (by simp [datasourceWellFormed])
        | str s => exact absurd hds (by simp [datasourceWellFormed])
        | ref t => exact absurd hds (by simp [datasourceWellFormed])
      refine ⟨g, by simp [malformedTypeNames], ?_⟩
      rw [checkPanels]
      rfl
    | true =>
      rw [hds, Bool.true_and, Bool.and_eq_false_iff] at hm
      rw [checkPanels,
        checkPanel_ok_of_wellFormed ad dsMap sv (.mk ty ti ds ch) hds]
      cases hch : panelsWellFormed ch with
      | false =>
        obtain ⟨g, hmem, herr⟩ := ihch hch
        have hch2 : ch.isEmpty = false := by
          cases ch with
          | nil => exact absurd hch (by simp [panelsWellFormed])
          | cons a as => rfl
        refine ⟨g, ?_, ?_⟩
        · rw [malformedTypeNames]
          simp [hmem]
          intro g2 hg2
          rw [hg2] at hds
          simp [datasourceWellFormed] at hds
        · simp [hch2, herr, Bind.bind, Except.bind]
      | true =>
        have hrest : panelsWellFormed rest = false := by
          rcases hm with h | h
          · exact absurd hch (by simp [h])
          · exact h
        obtain ⟨g, hmem, herr⟩ := ihrest hrest
        refine ⟨g, ?_, ?_⟩
        · rw [malformedTypeNames]
          simp [hmem]
          intro g2 hg2
          rw [hg2] at hds
          simp [datasourceWellFormed] at hds
        · by_cases hempty : ch.isEmpty = true
          · simp [hempty, herr, Bind.bind, Except.bind]
          · simp [hempty, herr, Bind.bind, Except.bind,
              checkPanels_eq_preorder_of_wellFormed ad dsMap sv ch hch]

/-- A classification failure makes the task record the wrapped error. -/
theorem processDashboard_classify_error (env : GrafanaEnv) (ad : String → Bool)
    (dsMap : String → String) (dash : ListedDashboard)
    (defn : DashboardDefinition) (e : String)
    (hfetch : env.getDashboard dash.uid = .ok defn)
    (hcp : checkPanels ad dsMap defn.dashboard.schemaVersion
      defn.dashboard.panels = .error e) :
    processDashboard env ad dsMap dash = .error ("check panels: " ++ e) := by
  simp [processDashboard, hfetch, hcp]

/-- A page on which exactly one task fails (with error message m) and all
others succeed yields entries for exactly the other summaries, in order, and
collects exactly that one error. -/
theorem processPage_one_failure (env : GrafanaEnv) (ad : String → Bool)
    (dsMap : String → String) (s1 s2 : List ListedDashboard)
    (sK : ListedDashboard) (m : String)
    (hKerr : processDashboard env ad dsMap sK = .error m)
    (hok : ∀ s ∈ s1 ++ s2, ∃ o, processDashboard env ad dsMap s = .ok o) :
    (processPage env ad dsMap (s1 ++ sK :: s2)).1.map (fun o => o.title) =
      (s1 ++ s2).map (fun s => s.title) ∧
    (processPage env ad dsMap (s1 ++ sK :: s2)).2 = [m] := by
  obtain ⟨h1err, h1map⟩ := processPage_all_ok env ad dsMap s1
    (fun s hs => hok s (List.mem_append_left s2 hs))
  obtain ⟨h2err, h2map⟩ := processPage_all_ok env ad dsMap s2
    (fun s hs => hok s (List.mem_append_right s1 hs))
  have hB : processPage env ad dsMap (sK :: s2) =
      ((processPage env ad dsMap s2).1, m :: (processPage env ad dsMap s2).2) := by
    simp [processPage, hKerr]
  rw [processPage_append env ad dsMap s1 (sK :: s2), hB]
  constructor
  · simp [h1map, h2map]
  · simp [h1err, h2err]

/-- Run on a single listing page where exactly one task fails: entries for
the other summaries, plus the aggregate error holding the one message. -/
theorem runDetector_one_failure (env : GrafanaEnv) (fs : FrontendSettings)
    (adMap : List (String × Bool)) (dss : List DatasourceEntry)
    (s1 s2 : List ListedDashboard) (sK : ListedDashboard) (m : String)
    (hfs : env.frontendSettings = .ok fs)
    (hclass : (if probeUseGCOM fs then gcomClassify env else frontendClassify fs) =
      .ok adMap)
    (hds : env.datasources = .ok dss)
    (hpages : env.listPages = [.ok (s1 ++ sK :: s2)])
    (hKerr : processDashboard env (lookupBoolMap adMap)
      (lookupStrMap (buildDatasourceMap dss)) sK = .error m)
    (hok : ∀ s ∈ s1 ++ s2, ∃ o, processDashboard env (lookupBoolMap adMap)
      (lookupStrMap (buildDatasourceMap dss)) s = .ok o) :
    (runDetector env).1.map (fun o => o.title) =
      (s1 ++ s2).map (fun s => s.title) ∧
    (runDetector env).2 = some (renderDownloadErrors [m]) := by
  obtain ⟨hmap, herrs⟩ := processPage_one_failure env (lookupBoolMap adMap)
    (lookupStrMap (buildDatasourceMap dss)) s1 s2 sK m hKerr hok
  have hpage := runPages_page_with_errors env (lookupBoolMap adMap)
    (lookupStrMap (buildDatasourceMap dss)) (s1 ++ sK :: s2) [] []
    (by simp) (by simp [herrs])
  simp only [runDetector, hfs, hclass, hds, hpages]
  rw [hpage, herrs]
  exact ⟨by simpa using hmap, rfl⟩

/-- C5: on a listing page where fetching exactly one dashboard (sK) fails
and every other task succeeds, Run returns entries for exactly the other
summaries (their titles, in listing order under the sequentialized model)
together with a non-nil aggregate error that spells out sK's UID. -/
theorem run_partial_failure_surfacing (env : GrafanaEnv)
    (fs : FrontendSettings) (adMap : List (String × Bool))
    (dss : List DatasourceEntry) (s1 s2 : List ListedDashboard)
    (sK : ListedDashboard) (e : String)
    (hfs : env.frontendSettings = .ok fs)
    (hclass : (if probeUseGCOM fs then gcomClassify env else frontendClassify fs) =
      .ok adMap)
    (hds : env.datasources = .ok dss)
    (hpages : env.listPages = [.ok (s1 ++ sK :: s2)])
    (hK : env.getDashboard sK.uid = .error e)
    (hok : ∀ s ∈ s1 ++ s2, ∃ o, processDashboard env (lookupBoolMap adMap)
      (lookupStrMap (buildDatasourceMap dss)) s = .ok o) :
    (runDetector env).1.map (fun o => o.title) =
      (s1 ++ s2).map (fun s => s.title) ∧
    (runDetector env).2 =
      some ("errors occurred during dashboard download: [get dashboard \"" ++
        sK.uid ++ "\": " ++ e ++ "]") := by
  have hKerr := processDashboard_fetch_error env (lookupBoolMap adMap)
    (lookupStrMap (buildDatasourceMap dss)) sK e hK
  obtain ⟨h1, h2⟩ := runDetector_one_failure env fs adMap dss s1 s2 sK _
    hfs hclass hds hpages hKerr hok
  refine ⟨h1, h2.trans (congrArg some ?_)⟩
  simp [renderDownloadErrors, String.intercalate, String.intercalate.go,
    String.append_assoc]
  rw [← String.append_assoc]
  rfl

/-- Witness for C5: three dashboards A, K, B with K's fetch failing: entries
titled A and B, and the aggregate error naming UID "k". -/
theorem run_partial_failure_surfacing_witness :
    (runDetector envPartialFailure).1.map (fun o => o.title) =
      ([({ uid := "a", url := "/d/a/a", title := "A" } : ListedDashboard)] ++
        [({ uid := "b", url := "/d/b/b", title := "B" } : ListedDashboard)]).map
        (fun s : ListedDashboard => s.title) ∧
    (runDetector envPartialFailure).2 =
      some ("errors occurred during dashboard download: [get dashboard \"" ++
        ({ uid := "k", url := "/d/k/k", title := "K" } : ListedDashboard).uid ++
        "\": " ++ "connection refused" ++ "]") :=
  run_partial_failure_surfacing envPartialFailure wFS
    [("briangann-datatable-panel", true)]
    [{ name := "akumuli", dsType := "akumuli-datasource" }]
    [{ uid := "a", url := "/d/a/a", title := "A" }]
    [{ uid := "b", url := "/d/b/b", title := "B" }]
    { uid := "k", url := "/d/k/k", title := "K" } "connection refused"
    rfl rfl rfl rfl rfl
    (by
      intro s hs
      rcases List.mem_append.mp hs with h | h
      · rw [List.mem_singleton.mp h]
        exact ⟨{ detections := [], url := "/d/a/a", title := "A",
                 folder := "test case folder", createdBy := "admin",
                 updatedBy := "admin", created := "2023-11-07",
                 updated := "2024-02-21" }, by
          simp +decide [processDashboard, envPartialFailure, wDefn, wMeta,
            checkPanels, dashboardAbsURL, stripAPISuffix]⟩
      · rw [List.mem_singleton.mp h]
        exact ⟨{ detections := [], url := "/d/b/b", title := "B",
                 folder := "test case folder", createdBy := "admin",
                 updatedBy := "admin", created := "2023-11-07",
                 updated := "2024-02-21" }, by
          simp +decide [processDashboard, envPartialFailure, wDefn, wMeta,
            checkPanels, dashboardAbsURL, stripAPISuffix]⟩)

/-- C9: a malformed datasource field (neither absent, nor a string, nor the
structured reference) aborts the dashboard's classification with a
descriptive error naming the unexpected Go type, discarding that dashboard's
detections; in Run, that dashboard contributes no entry while the others on
the page still do, and the error is folded into the aggregate error. -/
theorem malformed_datasource_aborts_dashboard :
    (∀ (ad : String → Bool) (dsMap : String → String) (sv : Int)
        (ps : List DashboardPanel), panelsWellFormed ps = false →
      ∃ g, g ∈ malformedTypeNames ps ∧
        checkPanels ad dsMap sv ps =
          .error ("unknown unmarshaled datasource type " ++ g)) ∧
    (∀ (env : GrafanaEnv) (fs : FrontendSettings)
        (adMap : List (String × Bool)) (dss : List DatasourceEntry)
        (s1 s2 : List ListedDashboard) (sK : ListedDashboard)
        (defn : DashboardDefinition) (cperr : String),
      env.frontendSettings = .ok fs →
      (if probeUseGCOM fs then gcomClassify env else frontendClassify fs) =
        .ok adMap →
      env.datasources = .ok dss →
      env.listPages = [.ok (s1 ++ sK :: s2)] →
      env.getDashboard sK.uid = .ok defn →
      checkPanels (lookupBoolMap adMap) (lookupStrMap (buildDatasourceMap dss))
        defn.dashboard.schemaVersion defn.dashboard.panels = .error cperr →
      (∀ s ∈ s1 ++ s2, ∃ o, processDashboard env (lookupBoolMap adMap)
        (lookupStrMap (buildDatasourceMap dss)) s = .ok o) →
      (runDetector env).1.map (fun o => o.title) =
        (s1 ++ s2).map (fun s => s.title) ∧
      (runDetector env).2 =
        some (renderDownloadErrors ["check panels: " ++ cperr])) := by
  constructor
  · exact fun ad dsMap sv ps hm => checkPanels_error_of_malformed ad dsMap sv ps hm
  · intro env fs adMap dss s1 s2 sK defn cperr hfs hclass hds hpages hfetch hcp hok
    exact runDetector_one_failure env fs adMap dss s1 s2 sK _ hfs hclass hds
      hpages
      (processDashboard_classify_error env (lookupBoolMap adMap)
        (lookupStrMap (buildDatasourceMap dss)) sK defn cperr hfetch hcp) hok

/-- Witness for C9: a malformed panel makes checkPanels fail naming float64,
and in Run dashboard K with that panel contributes no entry while A and B
do, the aggregate error carrying the check-panels message. -/
theorem malformed_datasource_aborts_dashboard_witness :
    (∃ g, g ∈ malformedTypeNames [.mk "table" "bad panel" (.other "float64") []] ∧
      checkPanels (fun _ => false) (fun _ => "") 30
        [.mk "table" "bad panel" (.other "float64") []] =
        .error ("unknown unmarshaled datasource type " ++ g)) ∧
    ((runDetector envMalformed).1.map (fun o => o.title) =
      ([({ uid := "a", url := "/d/a/a", title := "A" } : ListedDashboard)] ++
        [({ uid := "b", url := "/d/b/b", title := "B" } : ListedDashboard)]).map
        (fun s : ListedDashboard => s.title) ∧
    (runDetector envMalformed).2 =
      some (renderDownloadErrors
        ["check panels: " ++ "unknown unmarshaled datasource type float64"])) :=
  ⟨malformed_datasource_aborts_dashboard.1 (fun _ => false) (fun _ => "") 30
      [.mk "table" "bad panel" (.other "float64") []]
      (by simp [panelsWellFormed, datasourceWellFormed]),
   malformed_datasource_aborts_dashboard.2 envMalformed wFS
      [("briangann-datatable-panel", true)]
      [{ name := "akumuli", dsType := "akumuli-datasource" }]
      [{ uid := "a", url := "/d/a/a", title := "A" }]
      [{ uid := "b", url := "/d/b/b", title := "B" }]
      { uid := "k", url := "/d/k/k", title := "K" } wDefnMalformed
      "unknown unmarshaled datasource type float64"
      rfl rfl rfl rfl (by simp [envMalformed, envPartialFailure])
      (by simp [wDefnMalformed, checkPanels, checkPanel,
        DashboardPanel.datasource, DashboardPanel.panelType,
        DashboardPanel.title, Bind.bind, Except.bind])
      (by
        intro s hs
        rcases List.mem_append.mp hs with h | h
        · rw [List.mem_singleton.mp h]
          exact ⟨{ detections := [], url := "/d/a/a", title := "A",
                   folder := "test case folder", createdBy := "admin",
                   updatedBy := "admin", created := "2023-11-07",
                   updated := "2024-02-21" }, by
            simp +decide [processDashboard, envMalformed, envPartialFailure,
              wDefn, wMeta, checkPanels, dashboardAbsURL, stripAPISuffix]⟩
        · rw [List.mem_singleton.mp h]
          exact ⟨{ detections := [], url := "/d/b/b", title := "B",
                   folder := "test case folder", createdBy := "admin",
                   updatedBy := "admin", created := "2023-11-07",
                   updated := "2024-02-21" }, by
            simp +decide [processDashboard, envMalformed, envPartialFailure,
              wDefn, wMeta, checkPanels, dashboardAbsURL, stripAPISuffix]⟩)⟩

/-- C10: a dashboard-listing failure on a page makes the page loop return an
empty entry sequence with the wrapped listing error, discarding whatever was
accumulated from earlier pages (the acc argument), in contrast to a page
with per-dashboard failures, which returns the accumulated entries plus that
page's successes alongside the aggregate error. -/
theorem listing_failure_discards_entries (env : GrafanaEnv) (ad : String → Bool)
    (dsMap : String → String) :
    (∀ (e : String) (rest : List (Except String (List ListedDashboard)))
        (acc : List OutputDashboard),
      runPages env ad dsMap (.error e :: rest) acc =
        ([], some ("get dashboards: " ++ e))) ∧
    (∀ (d : ListedDashboard) (ds : List ListedDashboard)
        (rest : List (Except String (List ListedDashboard)))
        (acc : List OutputDashboard),
      (processPage env ad dsMap (d :: ds)).2 ≠ [] →
      runPages env ad dsMap (.ok (d :: ds) :: rest) acc =
        (acc ++ (processPage env ad dsMap (d :: ds)).1,
         some (renderDownloadErrors (processPage env ad dsMap (d :: ds)).2))) :=
  ⟨fun e rest acc => runPages_listing_error env ad dsMap e rest acc,
   fun d ds rest acc herr =>
     runPages_page_with_errors env ad dsMap (d :: ds) rest acc
       (by simp) herr⟩

/-- Witness for C10: with one entry already accumulated, a listing failure
returns no entries at all, while a page whose single fetch fails keeps the
accumulated entry. -/
theorem listing_failure_discards_entries_witness :
    (runPages envPartialFailure (fun _ => false) (fun _ => "")
        [.error "boom"]
        [{ detections := [], url := "", title := "old", folder := "",
           createdBy := "", updatedBy := "", created := "", updated := "" }] =
      ([], some ("get dashboards: " ++ "boom"))) ∧
    (runPages envPartialFailure (fun _ => false) (fun _ => "")
        [.ok [{ uid := "k", url := "/d/k/k", title := "K" }]]
        [{ detections := [], url := "", title := "old", folder := "",
           createdBy := "", updatedBy := "", created := "", updated := "" }] =
      ([{ detections := [], url := "", title := "old", folder := "",
          createdBy := "", updatedBy := "", created := "", updated := "" }] ++
        (processPage envPartialFailure (fun _ => false) (fun _ => "")
          [{ uid := "k", url := "/d/k/k", title := "K" }]).1,
       some (renderDownloadErrors
        (processPage envPartialFailure (fun _ => false) (fun _ => "")
          [{ uid := "k", url := "/d/k/k", title := "K" }]).2))) :=
  ⟨(listing_failure_discards_entries envPartialFailure (fun _ => false)
      (fun _ => "")).1 "boom" []
      [{ detections := [], url := "", title := "old", folder := "",
         createdBy := "", updatedBy := "", created := "", updated := "" }],
   (listing_failure_discards_entries envPartialFailure (fun _ => false)
      (fun _ => "")).2 { uid := "k", url := "/d/k/k", title := "K" } [] []
      [{ detections := [], url := "", title := "old", folder := "",
         createdBy := "", updatedBy := "", created := "", updated := "" }]
      (by simp [processPage, processDashboard, envPartialFailure])⟩

/-- C8: in the catalog-classification path, a failing permission fetch does
not abort — classification proceeds straight to the plugin-list fetch —
while a successful fetch whose map holds neither "datasources:create" nor
"plugins:install" makes Run abort with the privilege error and no entries. -/
theorem permission_check_policy :
    (∀ (env : GrafanaEnv) (e : String), env.permissions = .error e →
      gcomClassify env = gcomPluginsPhase env) ∧
    (∀ (env : GrafanaEnv) (fs : FrontendSettings) (k : String)
        (pnl : FrontendSettingsPanel)
        (rest : List (String × FrontendSettingsPanel))
        (perms : List (String × List String)),
      env.frontendSettings = .ok fs →
      fs.panels = (k, pnl) :: rest →
      pnl.angular = none →
      pnl.angularDetected = none →
      env.permissions = .ok perms →
      hasKey perms "datasources:create" = false →
      hasKey perms "plugins:install" = false →
      runDetector env = ([], some privilegeErrorMsg)) := by
  constructor
  · intro env e h
    simp [gcomClassify, h]
  · intro env fs k pnl rest perms hfs hpanels hang hdet hperm h1 h2
    have hprobe : probeUseGCOM fs = true := by
      simp [probeUseGCOM, hpanels, hang, hdet]
    simp [runDetector, hfs, hprobe, gcomClassify, hperm, h1, h2]

/-- Witness for C8: a permission-endpoint failure leaves classification
proceeding to the plugin list; a permission map with only dashboards:read
makes Run abort with the privilege error. -/
theorem permission_check_policy_witness :
    gcomClassify envPermsDown = gcomPluginsPhase envPermsDown ∧
    runDetector envPrivilege = ([], some privilegeErrorMsg) :=
  ⟨permission_check_policy.1 envPermsDown "404 page not found" rfl,
   permission_check_policy.2 envPrivilege wFSBare "graph"
     { angularDetected := none, angular := none } []
     [("dashboards:read", ["*"])] rfl rfl rfl rfl rfl (by decide) (by decide)⟩

/-- C7: in the catalog path, plugins reporting an empty version are skipped
(they leave the classification map untouched); a catalog response with a bad
HTTP status, or one lacking an item with the exact version string, classifies
as false rather than erroring; a catalog item matches only by exact string
equality on the version. -/
theorem catalog_classification_rules :
    (∀ (gc : String → String → GcomResponse) (ps : List Plugin)
        (acc : List (String × Bool)),
      buildGcomMap gc ps acc =
        buildGcomMap gc (ps.filter (fun p => p.info.version != "")) acc) ∧
    (∀ (code : Nat) (v : String),
      getAngularDetected (.badStatus code) v = .ok false) ∧
    (∀ (items : List PluginVersion) (v : String),
      (∀ pv ∈ items, pv.version ≠ v) →
      getAngularDetected (.ok { items := items }) v = .ok false) ∧
    (∀ (pv : PluginVersion) (rest : List PluginVersion) (v : String),
      pv.version = v →
      getAngularDetected (.ok { items := pv :: rest }) v =
        .ok pv.angularDetected) := by
  refine ⟨?_, fun code v => rfl, ?_, ?_⟩
  · intro gc ps
    induction ps with
    | nil => intro acc; rfl
    | cons p rest ih =>
      intro acc
      by_cases hv : p.info.version = ""
      · simp [buildGcomMap, List.filter_cons, hv, ih]
      · cases hga : getAngularDetected (gc p.id p.info.version) p.info.version with
        | error e => simp [buildGcomMap, List.filter_cons, hv, hga]
        | ok v => simp [buildGcomMap, List.filter_cons, hv, hga, ih]
  · intro items v h
    unfold getAngularDetected
    induction items with
    | nil => rfl
    | cons pv rest ih =>
      simp only [findVersionAngular]
      rw [if_neg (h pv (List.mem_cons_self pv rest))]
      exact ih (fun q hq => h q (List.mem_cons_of_mem pv hq))
  · intro pv rest v hv
    unfold getAngularDetected
    simp only [findVersionAngular]
    rw [if_pos hv]

/-- Witness for C7: a plugin with empty version is dropped from the build; a
404 and a version-mismatched catalog answer classify as false; an exact
version match returns the item's flag. -/
theorem catalog_classification_rules_witness :
    buildGcomMap (fun _ _ => .badStatus 404)
        [{ id := "a", info := { version := "" } },
         { id := "b", info := { version := "1.0.0" } }] [] =
      buildGcomMap (fun _ _ => .badStatus 404)
        (List.filter (fun p => p.info.version != "")
          [{ id := "a", info := { version := "" } },
           { id := "b", info := { version := "1.0.0" } }]) [] ∧
    getAngularDetected (.badStatus 404) "1.0.0" = .ok false ∧
    getAngularDetected (.ok { items := [{ version := "2.0.0", angularDetected := true }] })
      "1.0.0" = .ok false ∧
    getAngularDetected (.ok { items := [{ version := "1.0.0", angularDetected := true }] })
      "1.0.0" =
      .ok ({ version := "1.0.0", angularDetected := true } : PluginVersion).angularDetected :=
  ⟨catalog_classification_rules.1 (fun _ _ => .badStatus 404)
      [{ id := "a", info := { version := "" } },
       { id := "b", info := { version := "1.0.0" } }] [],
   catalog_classification_rules.2.1 404 "1.0.0",
   catalog_classification_rules.2.2.1 [{ version := "2.0.0", angularDetected := true }]
      "1.0.0" (by decide),
   catalog_classification_rules.2.2.2 { version := "1.0.0", angularDetected := true }
      [] "1.0.0" rfl⟩

end DetectAngular
